import Mathlib

/-!
Shallow embedding of the recording-session state machine of
`src/voice_recorder.py` (the whispy push-to-talk dictation utility), and
proofs of the specified properties of its state record, liveness check,
toggle protocol, capture callback, stop/finalization path, downstream
cleanup and CLI surface.

External collaborators (the sounddevice capture stream, the HTTP
transcription and refinement services, clipboard/paste sinks and the
notifier) are modelled as environment parameters, following §6 of the
specification: the core only observes their boolean/outcome results.
-/

namespace Whispy

/-- A parsed session-state record, as produced by `json.load` followed by
`state.get("recording", False)` / `state.get("pid")` in
`VoiceRecorder.get_state`: a boolean `recording` flag and an optional
process id (`pid` may be absent, i.e. `none`, matching JSON `null` or a
missing key). -/
structure StateRec where
  recording : Bool
  pid : Option Nat
deriving DecidableEq, Repr

/-- The on-disk state file `~/.whispy_state`: absent, present but
unreadable/corrupt (any `open`/`json.load` failure), or a readable record. -/
inductive StateFile where
  | absent
  | corrupt
  | record (st : StateRec)
deriving DecidableEq, Repr

/-- Python truthiness of the `pid` value (`state.get("pid")` in a
condition): `None` and `0` are falsy, every other integer is truthy. -/
def pyTruthyPid : Option Nat → Bool
  | none => false
  | some p => p != 0

/-- Embeds `VoiceRecorder.is_process_running`: `if not pid: return False`, then
probe with `os.kill(pid, 0)`; `alive` is the environment's answer to that
probe. Returns false for an absent or zero pid without probing. -/
def is_process_running (alive : Nat → Bool) (pid : Option Nat) : Bool :=
  match pid with
  | none => false
  | some p => if p = 0 then false else alive p

/-- The default inactive state `{"recording": False, "pid": None}`. -/
def defaultState : StateRec := ⟨false, none⟩

/-- Embeds `VoiceRecorder.get_state`: read the state file; on a missing or
unreadable file return the default inactive state (the bare `except:
pass` swallows every error).  If the record claims `recording` and has a
truthy `pid` but that process is not running, delete the file
(`cleanup_state`) and return the default; otherwise return the record
unchanged.  Returns the reported state together with the state file as
left on disk. -/
def get_state (alive : Nat → Bool) (fs : StateFile) : StateRec × StateFile :=
  match fs with
  | .absent => (defaultState, fs)
  | .corrupt => (defaultState, fs)
  | .record st =>
    if st.recording && pyTruthyPid st.pid then
      if !is_process_running alive st.pid then
        (defaultState, .absent)
      else
        (st, fs)
    else
      (st, fs)

/-- Embeds `VoiceRecorder.set_state`: the record written by
`json.dump({"recording": recording, "pid": pid})`. -/
def set_state (recording : Bool) (pid : Option Nat) : StateRec :=
  ⟨recording, pid⟩

/-- Embeds `VoiceRecorder.cleanup_state`: unlink the state file if it exists;
idempotent. -/
def cleanup_state (_fs : StateFile) : StateFile := .absent

/-- Outcome of `VoiceRecorder.toggle_recording`. -/
inductive ToggleAction where
  /-- The call `os.kill(pid, SIGUSR1)` succeeded; toggle returns True. -/
  | signalled (pid : Nat)
  /-- The call `os.kill` raised `OSError`; toggle returns False. -/
  | signalFailed
  /-- state claimed recording but no live owner to signal; returns False. -/
  | noLiveOwner
  /-- state inactive: `start_recording()` begins a fresh session. -/
  | startFresh
deriving DecidableEq, Repr

/-- Whether a `ToggleAction` is the boolean the Python function returns
(`start_recording`'s own result abstracted as success of the fresh
session's launch decision). -/
def ToggleAction.isSignalSuccess : ToggleAction → Bool
  | .signalled _ => true
  | _ => false

/-- Embeds `VoiceRecorder.toggle_recording`: read the (reconciled) state; if it
still claims `recording`, signal the recorded owner with SIGUSR1 when it
is truthy and alive (`sigOk` tells whether delivery succeeds), otherwise
return failure; if the state is inactive, start a fresh recording
session.  Returns the chosen action and the state file left by the read. -/
def toggle_recording (alive : Nat → Bool) (sigOk : Nat → Bool)
    (fs : StateFile) : ToggleAction × StateFile :=
  let (current_state, fs') := get_state alive fs
  if current_state.recording then
    match current_state.pid with
    | none => (.noLiveOwner, fs')
    | some p =>
      if pyTruthyPid (some p) && is_process_running alive (some p) then
        if sigOk p then (.signalled p, fs') else (.signalFailed, fs')
      else
        (.noLiveOwner, fs')
  else
    (.startFresh, fs')

/-- One audio chunk delivered by the capture callback (`indata.copy()`):
a list of 16-bit samples (mono, so one sample per frame). -/
def Chunk := List Int
deriving DecidableEq, Repr

/-- The in-process fields of a `VoiceRecorder` that the recording session
touches: the internal `recording` flag, the `audio_buffer` list of chunks,
and whether an open capture `stream` object is held (`None` is falsy,
an `InputStream` object is truthy). -/
structure RecState where
  recording : Bool
  stream : Bool
  audio_buffer : List Chunk
deriving DecidableEq, Repr

/-- Embeds `VoiceRecorder.audio_callback`: append a copy of the incoming chunk
to `audio_buffer` iff the `recording` flag is set; otherwise discard it.
(The `status` print has no effect on the data.) -/
def audio_callback (s : RecState) (indata : Chunk) : RecState :=
  if s.recording then
    { s with audio_buffer := s.audio_buffer ++ [indata] }
  else
    s

/-- Embeds `VoiceRecorder.stop_recording_signal` (SIGUSR1 handler): clear the
internal `recording` flag; nothing else. -/
def stop_recording_signal (s : RecState) : RecState :=
  { s with recording := false }

/-- Result of one call to `VoiceRecorder.stop_recording`: the returned
value (`none` for Python `None`, `some data` for the temp-file path whose
wav contents are `data`), the recorder fields afterwards, the `set_state`
write performed (if any), the wav data written to a fresh temporary file
(if any), and whether the "No audio recorded" failure notification was
shown. -/
structure StopOut where
  result : Option (List Int)
  state : RecState
  stateWrite : Option StateRec
  artifactWritten : Option (List Int)
  notifiedNoAudio : Bool
deriving DecidableEq, Repr

/-- Embeds `VoiceRecorder.stop_recording`:
* if there is no stream and the buffer is empty, return `None` at once,
  touching nothing;
* otherwise clear the `recording` flag and stop/close any open stream;
* if the buffer is empty, notify "No audio recorded", write the inactive
  state and return `None`;
* otherwise concatenate the buffered chunks in order
  (`np.concatenate(self.audio_buffer, axis=0)`), write them to a fresh
  temporary wav file, write the inactive state and return the path.
The buffer itself is never cleared. -/
def stop_recording (s : RecState) : StopOut :=
  if !s.stream && s.audio_buffer.isEmpty then
    { result := none, state := s, stateWrite := none
      artifactWritten := none, notifiedNoAudio := false }
  else
    let s1 : RecState := { s with recording := false, stream := false }
    if s1.audio_buffer.isEmpty then
      { result := none, state := s1
        stateWrite := some (set_state false none)
        artifactWritten := none, notifiedNoAudio := true }
    else
      let audio_data := s1.audio_buffer.flatten
      { result := some audio_data, state := s1
        stateWrite := some (set_state false none)
        artifactWritten := some audio_data, notifiedNoAudio := false }

/-- Embeds `VoiceRecorder.cleanup_temp_file`: unlink the file when the path is
truthy and the file exists; every error is caught.  Returns whether the
file was deleted. -/
def cleanup_temp_file (file_path : Option (List Int)) (file_exists : Bool) :
    Bool :=
  match file_path with
  | none => false
  | some _ => file_exists

/-- Outcome of the external transcription call (`transcribe_audio`): a
transcription string, a reported failure (`None` return), or a raised
exception escaping the call. -/
inductive TranscribeOutcome where
  | ok (text : String)
  | failed
  | raises
deriving DecidableEq, Repr

/-- Environment of `process_recording`: the outcomes of the external
collaborators (§6 of the spec) — the transcription service, and the
combined clipboard/paste output result of `output_text`.  `improve_text`
never raises and falls back to its input on failure, so only the output
result matters downstream. -/
structure PipelineEnv where
  transcribe : TranscribeOutcome
  outputOk : Bool
deriving DecidableEq, Repr

deriving instance DecidableEq for Except

/-- Result of `VoiceRecorder.process_recording`: the returned boolean, or
`Except.error ()` when an exception propagates out of the `try` block;
whether the artifact file was deleted by the `finally` cleanup; whether
the transcription service was invoked; and the embedded `stop_recording`
outcome. -/
structure ProcOut where
  success : Except Unit Bool
  deletedArtifact : Bool
  transcribeCalled : Bool
  stopOut : StopOut
deriving DecidableEq, Repr

/-- Embeds `VoiceRecorder.process_recording`: call `stop_recording`; on `None`
return False with no pipeline call; otherwise run the pipeline inside
`try:`, with `cleanup_temp_file(audio_file)` in the `finally:` block so
the artifact is deleted on success, per-stage failure and raised
exception alike.  In every processing mode the final boolean is
`output_text`'s result on the (possibly improved) text. -/
def process_recording (processing_mode : String) (env : PipelineEnv)
    (s : RecState) : ProcOut :=
  let so := stop_recording s
  match so.result with
  | none =>
    { success := .ok false, deletedArtifact := false
      transcribeCalled := false, stopOut := so }
  | some audio_file =>
    let deleted := cleanup_temp_file (some audio_file) true
    match env.transcribe with
    | .raises =>
      { success := .error (), deletedArtifact := deleted
        transcribeCalled := true, stopOut := so }
    | .failed =>
      { success := .ok false, deletedArtifact := deleted
        transcribeCalled := true, stopOut := so }
    | .ok _ =>
      let success :=
        if processing_mode = "instant" then env.outputOk
        else if processing_mode = "improved" then env.outputOk
        else if processing_mode = "both" then env.outputOk
        else false
      { success := .ok success, deletedArtifact := deleted
        transcribeCalled := true, stopOut := so }

/-- Embeds `VoiceRecorder.cleanup_and_exit` (SIGTERM/SIGINT handler): stop and
close the stream when one is open, unlink the state file, and call
`sys.exit(0)`.  Returns the recorder fields, the state file and the exit
code after the handler runs. -/
def cleanup_and_exit (s : RecState) (fs : StateFile) :
    RecState × StateFile × Nat :=
  let s' := if s.stream then { s with stream := false } else s
  (s', cleanup_state fs, 0)

/-- The three signals for which `VoiceRecorder.__init__` installs
handlers. -/
inductive Sig where
  | sigterm
  | sigint
  | sigusr1
deriving DecidableEq, Repr

/-- The handlers registered in `VoiceRecorder.__init__`. -/
inductive Handler where
  | cleanupAndExit
  | stopRecordingSignal
deriving DecidableEq, Repr

/-- The `signal.signal` registrations of `VoiceRecorder.__init__`:
SIGTERM and SIGINT are bound to `cleanup_and_exit`, SIGUSR1 to
`stop_recording_signal`. -/
def installed_handler : Sig → Handler
  | .sigterm => .cleanupAndExit
  | .sigint => .cleanupAndExit
  | .sigusr1 => .stopRecordingSignal

/-- Delivering a signal to the recording process: dispatch to the
installed handler.  `cleanup_and_exit` ends the process (exit code
`some 0`); `stop_recording_signal` only clears the flag and returns
(`none`: the process keeps running). -/
def deliver_signal (sig : Sig) (s : RecState) (fs : StateFile) :
    RecState × StateFile × Option Nat :=
  match installed_handler sig with
  | .cleanupAndExit =>
    let (s', fs', code) := cleanup_and_exit s fs
    (s', fs', some code)
  | .stopRecordingSignal => (stop_recording_signal s, fs, none)

/-- The `set_state` call sites of `voice_recorder.py`: the
`start_recording` write (`set_state(recording=True, pid=os.getpid())`)
and the two `stop_recording` writes (`set_state(recording=False)`, with
`pid` left at its `None` default) on the empty-buffer and success paths. -/
inductive StateWriteSite where
  | startSite (ownPid : Nat)
  | stopEmptySite
  | stopSuccessSite
deriving DecidableEq, Repr

/-- The record each call site passes to `set_state`. -/
def written_state : StateWriteSite → StateRec
  | .startSite ownPid => set_state true (some ownPid)
  | .stopEmptySite => set_state false none
  | .stopSuccessSite => set_state false none

/-- An event observed by the recording process while it sits in the
`Capturing` wait loop: the capture thread delivers a chunk to
`audio_callback`, or the SIGUSR1 stop handler clears the flag. -/
inductive CaptureEvent where
  | deliver (c : Chunk)
  | stopSignal
deriving DecidableEq, Repr

/-- One event step of the capturing process. -/
def capture_step (s : RecState) : CaptureEvent → RecState
  | .deliver c => audio_callback s c
  | .stopSignal => stop_recording_signal s

/-- Run a sequence of capture events from a given recorder state. -/
def capture_run (s : RecState) (es : List CaptureEvent) : RecState :=
  es.foldl capture_step s

/-- The chunks of an event sequence that arrive while the `recording`
flag (initially `b`) is still set; a stop signal clears the flag for the
rest of the sequence, and the flag is never re-set within a session. -/
def chunks_while_recording (b : Bool) : List CaptureEvent → List Chunk
  | [] => []
  | .deliver c :: es =>
    (if b then [c] else []) ++ chunks_while_recording b es
  | .stopSignal :: es => chunks_while_recording false es

/-- The recorder state at the start of a session, just after
`start_recording` set `recording = True`, reset the buffer and opened the
stream. -/
def session_start : RecState :=
  { recording := true, stream := true, audio_buffer := [] }

/-- How the `toggle()` invocation of `main` ends when no `--status` flag
is given. -/
inductive RunOutcome where
  /-- The call `toggle_recording()` returned a boolean. -/
  | completes (success : Bool)
  /-- SIGINT was delivered while this process was the recording session
  (inside the `Capturing` wait loop). -/
  | interruptDuringRecording
deriving DecidableEq, Repr

/-- Embeds `main`: with a first argument `--status`, read the state, print
`recording` or `idle` and exit 0.  Otherwise run `toggle_recording` and
exit 0 on True, 1 on False; `main`'s `except KeyboardInterrupt` branch
would exit 1, but `VoiceRecorder.__init__` rebinds SIGINT to
`cleanup_and_exit`, so an interrupt while recording runs that handler
(exiting with its code) and never raises `KeyboardInterrupt`.  Returns
the exit code and the word printed in status mode. -/
def mainRun (argv1 : Option String) (alive : Nat → Bool)
    (fs : StateFile) (s : RecState) (run : RunOutcome) :
    Nat × Option String :=
  if argv1 = some "--status" then
    let st := (get_state alive fs).1
    (0, some (if st.recording then "recording" else "idle"))
  else
    match run with
    | .completes success => (if success then 0 else 1, none)
    | .interruptDuringRecording =>
      let (_, _, code) := cleanup_and_exit s fs
      (code, none)

/-! ## Theorems -/

/-- Claim C3: reading the session state when the state record is missing
or unreadable/corrupt returns the default inactive state
`{recording: false, pid: None}` and never raises (`get_state` is a total
function: the bare `except` turns every read/parse failure into the
default return). -/
theorem get_state_missing_or_corrupt_default (alive : Nat → Bool) :
    (get_state alive .absent).1 = defaultState ∧
    (get_state alive .corrupt).1 = defaultState :=
  ⟨rfl, rfl⟩

/-- Claim C1 fails on the code: for the persisted record
`{recording: true, pid: None}` (active with an absent owner, for which
the liveness check indeed returns false), `get_state` returns the record
unchanged — still `recording = true`, not `{active : false}` — and a
subsequent `toggle_recording` neither signals nor starts a fresh session
(it returns failure through the `noLiveOwner` branch), because the
reconciliation guard `state.get("recording") and state.get("pid")`
skips records whose pid is falsy. -/
theorem get_state_dead_owner_cex :
    (get_state (fun _ => false) (.record ⟨true, none⟩)).1.recording = true ∧
    (toggle_recording (fun _ => false) (fun _ => true)
        (.record ⟨true, none⟩)).1 ≠ ToggleAction.startFresh := by
  decide

/-- Claim C1 as amended: for a persisted record with `recording = true`
and a present, nonzero owner pid that is not alive, `get_state` yields
the default inactive state (deleting the stale record) and a subsequent
`toggle_recording` starts a fresh session rather than signalling; but
when the owner is absent or zero (a falsy pid), the record is returned
unchanged — still active — and `toggle_recording` neither signals nor
starts a session. -/
theorem get_state_dead_owner_reconciles :
    (∀ alive sigOk : Nat → Bool, ∀ st : StateRec, ∀ p : Nat,
      st.recording = true → st.pid = some p → p ≠ 0 → alive p = false →
      (get_state alive (.record st)).1 = defaultState ∧
      (get_state alive (.record st)).2 = .absent ∧
      (toggle_recording alive sigOk (.record st)).1 = .startFresh) ∧
    (∀ alive sigOk : Nat → Bool, ∀ st : StateRec,
      st.recording = true → pyTruthyPid st.pid = false →
      (get_state alive (.record st)).1 = st ∧
      (toggle_recording alive sigOk (.record st)).1 = .noLiveOwner) := by
  constructor
  · intro alive sigOk st p hrec hpid hp hdead
    have htr : pyTruthyPid st.pid = true := by
      simp [pyTruthyPid, hpid, hp]
    have hnr : is_process_running alive st.pid = false := by
      simp [is_process_running, hpid, hdead]
    refine ⟨?_, ?_, ?_⟩ <;>
      simp [get_state, toggle_recording, hrec, htr, hnr, defaultState]
  · intro alive sigOk st hrec hfalsy
    have hg : get_state alive (.record st) = (st, .record st) := by
      simp [get_state, hfalsy]
    refine ⟨by simp [hg], ?_⟩
    rcases hpid : st.pid with _ | p
    · simp [toggle_recording, hg, hrec, hpid]
    · have hp0 : p = 0 := by
        by_contra hne
        simp [pyTruthyPid, hpid, hne] at hfalsy
      simp [toggle_recording, hg, hrec, hpid, hp0, pyTruthyPid]

/-- Witness for the amended C1: at the concrete record
`{recording: true, pid: 7}` with no process alive, reconciliation yields
the default state and toggle starts fresh; at `{recording: true,
pid: None}` the record is kept and toggle fails. -/
theorem get_state_dead_owner_reconciles_witness :
    ((get_state (fun _ => false) (.record ⟨true, some 7⟩)).1 = defaultState ∧
     (get_state (fun _ => false) (.record ⟨true, some 7⟩)).2 = .absent ∧
     (toggle_recording (fun _ => false) (fun _ => true)
        (.record ⟨true, some 7⟩)).1 = .startFresh) ∧
    ((get_state (fun _ => false) (.record ⟨true, none⟩)).1 = ⟨true, none⟩ ∧
     (toggle_recording (fun _ => false) (fun _ => true)
        (.record ⟨true, none⟩)).1 = .noLiveOwner) :=
  ⟨get_state_dead_owner_reconciles.1 (fun _ => false) (fun _ => true)
      ⟨true, some 7⟩ 7 rfl rfl (by decide) rfl,
   get_state_dead_owner_reconciles.2 (fun _ => false) (fun _ => true)
      ⟨true, none⟩ rfl rfl⟩

/-- Folding `audio_callback` over a chunk list while the flag is set
appends the chunks, in order, to the buffer and touches nothing else. -/
lemma foldl_audio_callback (cs : List Chunk) :
    ∀ s : RecState, s.recording = true →
      cs.foldl audio_callback s =
        { s with audio_buffer := s.audio_buffer ++ cs } := by
  induction cs with
  | nil => intro s _; simp
  | cons c cs ih =>
    intro s hs
    rw [List.foldl_cons,
        show audio_callback s c
            = { s with audio_buffer := s.audio_buffer ++ [c] } by
          simp [audio_callback, hs],
        ih { s with audio_buffer := s.audio_buffer ++ [c] } hs]
    simp

/-- Claim C2: for every sequence of chunk appends performed by the
capture callback during one session (the flag set throughout), the
sample data written to the finalized audio artifact — and returned by
`stop_recording` — equals the flat concatenation of the appended chunks
in arrival order. -/
theorem artifact_is_concat_of_chunks (cs : List Chunk) (hne : cs ≠ []) :
    (stop_recording (cs.foldl audio_callback session_start)).result
        = some cs.flatten ∧
    (stop_recording (cs.foldl audio_callback session_start)).artifactWritten
        = some cs.flatten := by
  rw [foldl_audio_callback cs session_start rfl]
  simp [session_start, stop_recording, hne]

/-- Witness for C2 at the concrete chunk sequence `[[1, 2], [3]]`: the
artifact data is `[1, 2, 3]`. -/
theorem artifact_is_concat_of_chunks_witness :
    (stop_recording ([[1, 2], [3]].foldl audio_callback session_start)).result
        = some [1, 2, 3] ∧
    (stop_recording
        ([[1, 2], [3]].foldl audio_callback session_start)).artifactWritten
        = some [1, 2, 3] :=
  artifact_is_concat_of_chunks [[1, 2], [3]] (by decide)

/-- Running capture events leaves the stream field untouched (neither the
callback nor the SIGUSR1 handler closes the stream). -/
lemma capture_run_stream (es : List CaptureEvent) :
    ∀ s : RecState, (capture_run s es).stream = s.stream := by
  induction es with
  | nil => intro s; rfl
  | cons e es ih =>
    intro s
    cases e with
    | deliver c =>
      rw [capture_run, List.foldl_cons, ← capture_run, ih]
      by_cases hs : s.recording = true <;>
        simp [capture_step, audio_callback, hs]
    | stopSignal =>
      rw [capture_run, List.foldl_cons, ← capture_run, ih]
      rfl

/-- Buffer contents after a run of capture events: the initial buffer
followed by exactly the chunks delivered while the `recording` flag was
still set. -/
lemma capture_run_buffer (es : List CaptureEvent) :
    ∀ s : RecState, (capture_run s es).audio_buffer =
      s.audio_buffer ++ chunks_while_recording s.recording es := by
  induction es with
  | nil => intro s; simp [capture_run, chunks_while_recording]
  | cons e es ih =>
    intro s
    cases e with
    | deliver c =>
      rw [capture_run, List.foldl_cons, ← capture_run]
      by_cases hs : s.recording = true
      · rw [show capture_step s (.deliver c)
              = { s with audio_buffer := s.audio_buffer ++ [c] } by
            simp [capture_step, audio_callback, hs]]
        rw [ih]
        simp [chunks_while_recording, hs]
      · have hs' : s.recording = false := by
          revert hs; cases s.recording <;> simp
        rw [show capture_step s (.deliver c) = s by
            simp [capture_step, audio_callback, hs']]
        rw [ih]
        simp [chunks_while_recording, hs']
    | stopSignal =>
      rw [capture_run, List.foldl_cons, ← capture_run]
      rw [show capture_step s .stopSignal
            = { s with recording := false } by rfl]
      rw [ih]
      simp [chunks_while_recording]

/-- Claim C10: the capture callback discards (without error — it is a
total function returning the state unchanged) every chunk delivered
after the `recording` flag has been cleared by the stop-signal handler,
so for every event sequence of a session the buffer holds exactly the
chunks delivered while the flag was set, and the finalized artifact is
their in-order concatenation (absent when no chunk made it in). -/
theorem artifact_excludes_chunks_after_stop (es : List CaptureEvent) :
    (capture_run session_start es).audio_buffer
        = chunks_while_recording true es ∧
    (stop_recording (capture_run session_start es)).artifactWritten
        = (if (chunks_while_recording true es).isEmpty then none
           else some (chunks_while_recording true es).flatten) := by
  have hbuf := capture_run_buffer es session_start
  have hstream := capture_run_stream es session_start
  rw [show session_start.audio_buffer = [] from rfl,
      show session_start.recording = true from rfl, List.nil_append] at hbuf
  refine ⟨hbuf, ?_⟩
  rw [show session_start.stream = true from rfl] at hstream
  by_cases hemp : chunks_while_recording true es = []
  · rw [stop_recording, if_neg (by simp [hstream]),
        if_pos (by simp [hbuf, hemp])]
    simp [hemp]
  · rw [stop_recording, if_neg (by simp [hstream]),
        if_neg (by simp [hbuf, hemp])]
    simp [hbuf, hemp]

/-- Claim C4 fails on the code in two places.  First, `stop_recording`
is not idempotent after a successful stop: the buffer is never cleared,
so calling it again on the post-stop state (here, after stopping the
session that buffered `[[1]]`) concatenates and writes a second artifact
with the same data and performs another state write.  Second, in the
no-stream/no-buffer case the early `return None` fires before the flag
assignment, so a call with `recording = true`, no stream and an empty
buffer leaves the `recording` flag set. -/
theorem stop_recording_idempotence_cex :
    (stop_recording
        (stop_recording ⟨true, true, [[1]]⟩).state).artifactWritten
        = some [1] ∧
    (stop_recording
        (stop_recording ⟨true, true, [[1]]⟩).state).stateWrite
        = some (set_state false none) ∧
    (stop_recording ⟨true, false, []⟩).state.recording = true := by
  decide

/-- Claim C4 as amended: `stop_recording` is safe to call when no stream
and no buffer exist — it returns the "nothing to stop" outcome `None`
and performs no write, but leaves every field (the `recording` flag
included) untouched; on every other call it clears the flag and closes
the stream before the buffer check, regardless of whether a usable
buffer is then found; a second call after a stop that returned `None` is
a no-op, but after a successful stop the retained buffer makes a second
call produce a fresh artifact and state write with the same data. -/
theorem stop_recording_stop_behavior :
    (∀ s : RecState, s.stream = false → s.audio_buffer = [] →
      stop_recording s =
        { result := none, state := s, stateWrite := none
          artifactWritten := none, notifiedNoAudio := false }) ∧
    (∀ s : RecState, s.stream = true ∨ s.audio_buffer ≠ [] →
      (stop_recording s).state.recording = false ∧
      (stop_recording s).state.stream = false) ∧
    (∀ s : RecState, (stop_recording s).result = none →
      stop_recording (stop_recording s).state =
        { result := none, state := (stop_recording s).state
          stateWrite := none, artifactWritten := none
          notifiedNoAudio := false }) ∧
    (∀ s : RecState, ∀ d : List Int, (stop_recording s).result = some d →
      stop_recording (stop_recording s).state =
        { result := some d, state := (stop_recording s).state
          stateWrite := some (set_state false none)
          artifactWritten := some d, notifiedNoAudio := false }) := by
  refine ⟨?_, ?_, ?_, ?_⟩
  · intro s hst hbuf
    simp [stop_recording, hst, hbuf]
  · intro s h
    rcases h with hst | hbuf
    · constructor <;>
        · rw [stop_recording, if_neg (by simp [hst])]
          by_cases hb : s.audio_buffer.isEmpty = true <;> simp [hb]
    · constructor <;>
        · rw [stop_recording,
              if_neg (by simp [List.isEmpty_iff]; intro _; exact hbuf)]
          by_cases hb : s.audio_buffer.isEmpty = true <;> simp [hb]
  · intro s hres
    rcases s with ⟨r, st, buf⟩
    cases st <;> cases buf <;>
      simp_all [stop_recording]
  · intro s d hres
    rcases s with ⟨r, st, buf⟩
    cases st <;> rcases buf with _ | ⟨c, cs⟩ <;>
      simp_all [stop_recording]

/-- Witness for the amended C4: the nothing-to-stop call at
`{recording := true, stream := none, buffer := []}` returns `None`
leaving the flag set; stopping the session that buffered `[[1]]` clears
flag and stream; and the second call after that successful stop writes a
fresh artifact `[1]` again. -/
theorem stop_recording_stop_behavior_witness :
    (stop_recording ⟨true, false, []⟩ =
      { result := none, state := ⟨true, false, []⟩, stateWrite := none
        artifactWritten := none, notifiedNoAudio := false }) ∧
    ((stop_recording ⟨true, true, [[1]]⟩).state.recording = false ∧
     (stop_recording ⟨true, true, [[1]]⟩).state.stream = false) ∧
    (stop_recording (stop_recording ⟨true, true, [[1]]⟩).state =
      { result := some [1], state := (stop_recording ⟨true, true, [[1]]⟩).state
        stateWrite := some (set_state false none)
        artifactWritten := some [1], notifiedNoAudio := false }) :=
  ⟨stop_recording_stop_behavior.1 ⟨true, false, []⟩ rfl rfl,
   stop_recording_stop_behavior.2.1 ⟨true, true, [[1]]⟩ (Or.inl rfl),
   stop_recording_stop_behavior.2.2.2 ⟨true, true, [[1]]⟩ [1] (by decide)⟩

/-- Claim C5: when stop is reached with zero buffered chunks (the open
stream of a running session, empty buffer), `process_recording` reports
failure to the user (the "No audio recorded" notification, return value
False), writes the cleared (inactive) session state, produces no audio
artifact, and never invokes the downstream transcription pipeline — in
every processing mode and pipeline environment. -/
theorem empty_capture_no_artifact (mode : String) (env : PipelineEnv)
    (s : RecState) (hstream : s.stream = true)
    (hbuf : s.audio_buffer = []) :
    (process_recording mode env s).success = .ok false ∧
    (process_recording mode env s).transcribeCalled = false ∧
    (process_recording mode env s).stopOut.artifactWritten = none ∧
    (process_recording mode env s).stopOut.stateWrite
        = some (set_state false none) ∧
    (process_recording mode env s).stopOut.notifiedNoAudio = true := by
  rcases s with ⟨r, st, buf⟩
  cases st <;> simp_all [process_recording, stop_recording]

/-- Witness for C5 at a concrete running session with an empty buffer
and the harshest environment (transcription would raise). -/
theorem empty_capture_no_artifact_witness :
    (process_recording "improved" ⟨.raises, true⟩
        ⟨true, true, []⟩).success = .ok false ∧
    (process_recording "improved" ⟨.raises, true⟩
        ⟨true, true, []⟩).transcribeCalled = false ∧
    (process_recording "improved" ⟨.raises, true⟩
        ⟨true, true, []⟩).stopOut.artifactWritten = none ∧
    (process_recording "improved" ⟨.raises, true⟩
        ⟨true, true, []⟩).stopOut.stateWrite = some (set_state false none) ∧
    (process_recording "improved" ⟨.raises, true⟩
        ⟨true, true, []⟩).stopOut.notifiedNoAudio = true :=
  empty_capture_no_artifact "improved" ⟨.raises, true⟩ ⟨true, true, []⟩
    rfl rfl

/-- Claim C6: whenever finalization produced an artifact path, the
`finally` block of `process_recording` deletes the artifact file on
every exit path of the downstream pipeline — transcription success,
per-stage failure, or a raised exception — in every processing mode. -/
theorem artifact_deleted_on_every_path (mode : String) (env : PipelineEnv)
    (s : RecState) (d : List Int)
    (h : (stop_recording s).result = some d) :
    (process_recording mode env s).deletedArtifact = true := by
  rw [process_recording, h]
  rcases env with ⟨tr, out⟩
  cases tr <;> simp [cleanup_temp_file]

/-- Witness for C6 at a concrete session that buffered `[[1]]`, with the
transcription call raising: the artifact is still deleted. -/
theorem artifact_deleted_on_every_path_witness :
    (stop_recording ⟨true, true, [[1]]⟩).result = some [1] ∧
    (process_recording "improved" ⟨.raises, true⟩
        ⟨true, true, [[1]]⟩).deletedArtifact = true :=
  ⟨by decide,
   artifact_deleted_on_every_path "improved" ⟨.raises, true⟩
     ⟨true, true, [[1]]⟩ [1] (by decide)⟩

/-- Claim C7: delivering SIGTERM or SIGINT to the recording process runs
the installed `cleanup_and_exit` handler, which, before the process
exits (`sys.exit(0)`), stops and closes any active capture stream and
removes the persisted session-state record — from every recorder state
and every state-file content. -/
theorem termination_cleans_stream_and_state (sig : Sig) (s : RecState)
    (fs : StateFile) (h : sig = .sigterm ∨ sig = .sigint) :
    (deliver_signal sig s fs).1.stream = false ∧
    (deliver_signal sig s fs).2.1 = .absent ∧
    (deliver_signal sig s fs).2.2 = some 0 := by
  rcases h with h | h <;> subst h <;>
    rcases s with ⟨r, st, buf⟩ <;> cases st <;>
      simp [deliver_signal, installed_handler, cleanup_and_exit,
        cleanup_state]

/-- Witness for C7: SIGTERM delivered to a capturing session with an
open stream and a persisted active record closes the stream, removes the
record and exits 0. -/
theorem termination_cleans_stream_and_state_witness :
    (deliver_signal .sigterm ⟨true, true, [[1]]⟩
        (.record ⟨true, some 7⟩)).1.stream = false ∧
    (deliver_signal .sigterm ⟨true, true, [[1]]⟩
        (.record ⟨true, some 7⟩)).2.1 = .absent ∧
    (deliver_signal .sigterm ⟨true, true, [[1]]⟩
        (.record ⟨true, some 7⟩)).2.2 = some 0 :=
  termination_cleans_stream_and_state .sigterm ⟨true, true, [[1]]⟩
    (.record ⟨true, some 7⟩) (Or.inl rfl)

/-- Claim C8 names the intended behavior, but the code diverges at the
interrupt-during-recording input: `main`'s `except KeyboardInterrupt`
branch (and the one inside `start_recording`) would exit 1 on a user
interrupt, yet `VoiceRecorder.__init__` rebinds SIGINT to
`cleanup_and_exit`, which calls `sys.exit(0)`; `SystemExit` is not
caught by either handler, so a Ctrl-C while recording makes the process
exit 0, not 1.  This theorem evaluates the model at that failing input
(no `--status` flag, an interrupt arriving while this process records),
alongside the parts of the claim the code does meet: `--status` prints
`recording`/`idle` and exits 0, and a completed toggle exits 0 on
success and 1 on failure. -/
theorem main_interrupt_exits_zero :
    (mainRun none (fun _ => false) (.record ⟨true, some 5⟩)
        session_start .interruptDuringRecording) = (0, none) ∧
    (mainRun (some "--status") (fun _ => true) (.record ⟨true, some 5⟩)
        session_start (.completes true)) = (0, some "recording") ∧
    (mainRun (some "--status") (fun _ => true) .absent
        session_start (.completes true)) = (0, some "idle") ∧
    (mainRun none (fun _ => true) .absent ⟨false, false, []⟩
        (.completes true)) = (0, none) ∧
    (mainRun none (fun _ => true) .absent ⟨false, false, []⟩
        (.completes false)) = (1, none) := by
  refine ⟨rfl, ?_, rfl, rfl, rfl⟩
  simp [mainRun, get_state, pyTruthyPid, is_process_running]

/-- Claim C9: every `set_state` write performed by the program — the
`start_recording` write `set_state(True, os.getpid())` and the two
`stop_recording` writes `set_state(False)` — satisfies the invariant
that the owner pid is present if and only if the recording flag is true;
and the only record `stop_recording` ever writes is the inactive
`set_state(False)` one, for any recorder state. -/
theorem state_writes_preserve_invariant :
    (∀ w : StateWriteSite,
      ((written_state w).pid ≠ none ↔ (written_state w).recording = true)) ∧
    (∀ s : RecState, ∀ r : StateRec,
      (stop_recording s).stateWrite = some r →
      r = set_state false none ∧ (r.pid ≠ none ↔ r.recording = true)) := by
  constructor
  · intro w
    cases w <;> simp [written_state, set_state]
  · intro s r h
    rcases s with ⟨rec, st, buf⟩
    cases st <;> rcases buf with _ | ⟨c, cs⟩ <;>
      simp_all [stop_recording, set_state] <;> simp [← h]

/-- Witness for C9: the write performed on the empty-buffer stop path of
a running session is the inactive record, satisfying the invariant. -/
theorem state_writes_preserve_invariant_witness :
    ((written_state (.startSite 7)).pid ≠ none
        ↔ (written_state (.startSite 7)).recording = true) ∧
    (set_state false none = set_state false none ∧
      ((set_state false none).pid ≠ none
        ↔ (set_state false none).recording = true)) :=
  ⟨state_writes_preserve_invariant.1 (.startSite 7),
   state_writes_preserve_invariant.2 ⟨true, true, []⟩
     (set_state false none) (by decide)⟩

end Whispy
